import Mathlib

/-!
Verification development for the "ML production systems" notebook repository.

The repository consists of Jupyter notebooks (chapters 02, 03, 04 and 05)
whose code cells are short Python snippets.  Chapters 02 and 05 contain
real code cells, while chapters 03 and 04 present their snippets as fenced
`python` blocks inside markdown cells; fenced blocks of both chapters are
treated uniformly as code cells.  (Three of chapter 04's fenced blocks are
TFMD/schema protobuf fragments rather than Python and contribute no
statements; see `ch04s1` through `ch04s4` for the inventory.)  This file
embeds

* the syntax of every Python snippet of chapters 02, 03, 04 and 05, as a
  small Python abstract syntax tree (`PExpr` / `PStmt`), transcribed
  statement by statement from the notebooks, and
* the semantics of the individual snippets that the claims talk about
  (the Snorkel labeling functions, the `hour_of_week` feature cross, the
  timestamp-cleaning filter, the scaling / bucketizing / PCA examples, and
  the fallible-library-call structure of `univariate_selection` and
  `augment`).

The syntactic claims (which cells contain original logic, cross-cell
variable flow, absence of exception handlers and concurrency constructs)
are then settled by computation over the embedded cells, and the semantic
claims by proofs about the embedded functions.
-/

/-! ## A small Python abstract syntax tree

The grammar deliberately includes constructs that the notebooks never use
(`tryS` for `try/except`, `withS` for `with`-blocks, `awaitE`, loops), so
that their absence in the embedded cells is a meaningful statement rather
than an artifact of the grammar. -/

mutual

inductive PExpr where
  | numLit (s : String)
  | strLit (s : String)
  | nameE (x : String)
  | attr (e : PExpr) (f : String)
  | call (f : PExpr) (args : PArgs) (kwargs : PKwargs)
  | binop (op : String) (a b : PExpr)
  | cmp (op : String) (a b : PExpr)
  | condExpr (t c e : PExpr)
  | subscript (e ix : PExpr)
  | sliceTo (e hi : PExpr)
  | colIx (e ix : PExpr)
  | listL (xs : PArgs)
  | dictL (xs : PKwargs)
  | ellipsisLit
  | awaitE (e : PExpr)

inductive PArgs where
  | nil
  | cons (e : PExpr) (rest : PArgs)

inductive PKwargs where
  | nil
  | cons (k : String) (e : PExpr) (rest : PKwargs)

inductive PStmt where
  | exprS (e : PExpr)
  | assign (x : String) (e : PExpr)
  | tupleAssign (xs : List String) (e : PExpr)
  | subscriptAssign (x : String) (ix : PExpr) (e : PExpr)
  | funcDef (decs : PArgs) (nm : String) (params : List String) (body : PStmts)
  | ret (e : PExpr)
  | importAs (module asName : String)
  | importFrom (module : String) (names : List String)
  | shellCmd (s : String)
  | tryS (body : PStmts) (handler : PStmts)
  | withS (ctx : PExpr) (asName : String) (body : PStmts)
  | forS (v : String) (it : PExpr) (body : PStmts)
  | whileS (c : PExpr) (body : PStmts)
  | ifS (c : PExpr) (thn els : PStmts)

inductive PStmts where
  | nil
  | cons (s : PStmt) (rest : PStmts)

end

/-- Build an argument list from a Lean list of expressions. -/
def pargs : List PExpr → PArgs
  | [] => .nil
  | e :: es => .cons e (pargs es)

/-- Build a keyword-argument list from a Lean list of pairs. -/
def pkw : List (String × PExpr) → PKwargs
  | [] => .nil
  | (k, e) :: es => .cons k e (pkw es)

/-- Build a statement block from a Lean list of statements. -/
def pstmts : List PStmt → PStmts
  | [] => .nil
  | s :: ss => .cons s (pstmts ss)

/-! ### Collecting all subexpressions -/

mutual

/-- All subexpressions of an expression, the expression itself included. -/
def PExpr.subE : PExpr → List PExpr
  | .numLit s => [.numLit s]
  | .strLit s => [.strLit s]
  | .nameE x => [.nameE x]
  | .attr e f => .attr e f :: e.subE
  | .call f a k => .call f a k :: (f.subE ++ a.subA ++ k.subK)
  | .binop o a b => .binop o a b :: (a.subE ++ b.subE)
  | .cmp o a b => .cmp o a b :: (a.subE ++ b.subE)
  | .condExpr t c e => .condExpr t c e :: (t.subE ++ c.subE ++ e.subE)
  | .subscript e i => .subscript e i :: (e.subE ++ i.subE)
  | .sliceTo e h => .sliceTo e h :: (e.subE ++ h.subE)
  | .colIx e i => .colIx e i :: (e.subE ++ i.subE)
  | .listL xs => .listL xs :: xs.subA
  | .dictL xs => .dictL xs :: xs.subK
  | .ellipsisLit => [.ellipsisLit]
  | .awaitE e => .awaitE e :: e.subE

/-- All subexpressions of the expressions in an argument list. -/
def PArgs.subA : PArgs → List PExpr
  | .nil => []
  | .cons e r => e.subE ++ r.subA

/-- All subexpressions of the expressions in a keyword-argument list. -/
def PKwargs.subK : PKwargs → List PExpr
  | .nil => []
  | .cons _ e r => e.subE ++ r.subK

end

mutual

/-- All statements nested inside a statement, the statement itself included. -/
def PStmt.subSt : PStmt → List PStmt
  | .funcDef d n p b => .funcDef d n p b :: b.subSts
  | .tryS b h => .tryS b h :: (b.subSts ++ h.subSts)
  | .withS c a b => .withS c a b :: b.subSts
  | .forS v i b => .forS v i b :: b.subSts
  | .whileS c b => .whileS c b :: b.subSts
  | .ifS c t e => .ifS c t e :: (t.subSts ++ e.subSts)
  | s => [s]

/-- All statements nested inside a block. -/
def PStmts.subSts : PStmts → List PStmt
  | .nil => []
  | .cons s r => s.subSt ++ r.subSts

end

/-- The expressions appearing directly in a statement (not descending into
nested statements, which `PStmt.subSt` already enumerates). -/
def PStmt.topExprs : PStmt → List PExpr
  | .exprS e => [e]
  | .assign _ e => [e]
  | .tupleAssign _ e => [e]
  | .subscriptAssign x i e => [.nameE x, i, e]
  | .funcDef d _ _ _ => d.subA
  | .ret e => [e]
  | .importAs _ _ => []
  | .importFrom _ _ => []
  | .shellCmd _ => []
  | .tryS _ _ => []
  | .withS c _ _ => [c]
  | .forS _ i _ => [i]
  | .whileS c _ => [c]
  | .ifS c _ _ => [c]

/-! ### Variable analysis (definitions and free uses) -/

/-- The names a statement binds at its own level: assignment targets,
tuple-assignment targets (the `_` placeholder binds nothing), function
names and imported names. -/
def PStmt.bindsTop : PStmt → List String
  | .assign x _ => [x]
  | .tupleAssign xs _ => xs.filter (fun x => x != "_")
  | .funcDef _ n _ _ => [n]
  | .importAs _ a => [a]
  | .importFrom _ ns => ns
  | _ => []

/-- The names a block binds at its top level. -/
def PStmts.bindsTop : PStmts → List String
  | .nil => []
  | .cons s r => s.bindsTop ++ r.bindsTop

/-- Every name occurring in an expression. -/
def PExpr.namesOf (e : PExpr) : List String :=
  e.subE.filterMap (fun s => match s with | .nameE x => some x | _ => none)

/-- Every name occurring in an argument list. -/
def PArgs.namesOf (a : PArgs) : List String :=
  a.subA.filterMap (fun s => match s with | .nameE x => some x | _ => none)

mutual

/-- The names a statement uses from its enclosing scope.  A `def` body
follows Python scoping: names bound by the parameters or assigned anywhere
in the body are local and are removed from the body's free uses.
Subscript assignment (`df[k] = e`) mutates an existing object, so the
target counts as a use, not a binding. -/
def PStmt.freeUses : PStmt → List String
  | .exprS e => e.namesOf
  | .assign _ e => e.namesOf
  | .tupleAssign _ e => e.namesOf
  | .subscriptAssign x i e => x :: (i.namesOf ++ e.namesOf)
  | .funcDef d _ ps body =>
      d.namesOf ++
        (body.freeUses.filter (fun v =>
          !(ps.contains v || body.bindsTop.contains v)))
  | .ret e => e.namesOf
  | .importAs _ _ => []
  | .importFrom _ _ => []
  | .shellCmd _ => []
  | .tryS b h => b.freeUses ++ h.freeUses
  | .withS c a b => c.namesOf ++ b.freeUses.filter (fun v => v != a)
  | .forS v i b => i.namesOf ++ b.freeUses.filter (fun w => w != v)
  | .whileS c b => c.namesOf ++ b.freeUses
  | .ifS c t e => c.namesOf ++ t.freeUses ++ e.freeUses

/-- The names a block uses from its enclosing scope. -/
def PStmts.freeUses : PStmts → List String
  | .nil => []
  | .cons s r => s.freeUses ++ r.freeUses

end

/-! ### Cells and cell-level predicates -/

/-- One code snippet of a notebook: chapters 02 and 05 contribute their
code cells, and chapters 03 and 04 contribute the fenced `python` blocks
of their markdown cells. -/
structure Cell where
  notebook : String
  idx : Nat
  stmts : PStmts

/-- All expressions occurring anywhere in a cell. -/
def Cell.allExprs (c : Cell) : List PExpr :=
  ((c.stmts.subSts.map PStmt.topExprs).flatten.map PExpr.subE).flatten

/-- Does the cell contain a Python conditional expression (`a if c else b`)
or an `if` statement? -/
def Cell.hasConditional (c : Cell) : Bool :=
  c.allExprs.any (fun e => match e with | .condExpr _ _ _ => true | _ => false) ||
    c.stmts.subSts.any (fun s => match s with | .ifS _ _ _ => true | _ => false)

/-- Does the cell contain an arithmetic operator applied by the snippet
itself (as opposed to inside a library)? -/
def Cell.hasArith (c : Cell) : Bool :=
  c.allExprs.any (fun e => match e with | .binop _ _ _ => true | _ => false)

/-- Does the cell contain a comparison authored by the snippet itself
(a custom predicate such as a threshold test or an equality mask)? -/
def Cell.hasCompare (c : Cell) : Bool :=
  c.allExprs.any (fun e => match e with | .cmp _ _ _ => true | _ => false)

/-- Original control logic in the sense of the specification: a
conditional, arithmetic feature construction, or a custom predicate
written in the cell itself. -/
def Cell.hasOriginalLogic (c : Cell) : Bool :=
  c.hasConditional || c.hasArith || c.hasCompare

/-- Does the cell install an exception handler (`try`/`except`)? -/
def Cell.hasTryHandler (c : Cell) : Bool :=
  c.stmts.subSts.any (fun s => match s with | .tryS _ _ => true | _ => false)

/-- Names whose appearance would indicate thread or process creation,
asynchronous suspension, or explicit resource management. -/
def concurrencyNames : List String :=
  ["threading", "multiprocessing", "asyncio", "concurrent", "subprocess",
   "Thread", "Process", "Pool", "Lock", "open", "close", "socket"]

/-- Every plain name and every attribute (method) name occurring in a cell. -/
def Cell.allNames (c : Cell) : List String :=
  c.allExprs.filterMap (fun e =>
    match e with
    | .nameE x => some x
    | .attr _ f => some f
    | _ => none)

/-- Sequential single-shot execution: no concurrency or suspension
construct (`await`, `with`, loops over work queues) and no call that
creates threads or processes or manages a resource. -/
def Cell.isSequentialSingleShot (c : Cell) : Bool :=
  (!c.allExprs.any (fun e => match e with | .awaitE _ => true | _ => false)) &&
  (!c.stmts.subSts.any (fun s =>
      match s with
      | .withS _ _ _ => true
      | .forS _ _ _ => true
      | .whileS _ _ => true
      | _ => false)) &&
  (concurrencyNames.all (fun b => !c.allNames.contains b))

/-- Names bound at the top level of a cell. -/
def Cell.defines (c : Cell) : List String := c.stmts.bindsTop

/-- Names a cell reads from outside its own statements' local scopes. -/
def Cell.uses (c : Cell) : List String := c.stmts.freeUses

/-- Identifier of a cell, for stating exact lists of offending cells. -/
def Cell.ident (c : Cell) : String × Nat := (c.notebook, c.idx)

/-! ## The embedded notebook cells

Helper constructors keeping the transcriptions readable. -/

/-- A call `f(args, k=v, ...)`. -/
def pcall (f : PExpr) (args : List PExpr) (kws : List (String × PExpr)) : PExpr :=
  .call f (pargs args) (pkw kws)

/-- An attribute access `x.f` on a plain name. -/
def pdot (x f : String) : PExpr := .attr (.nameE x) f

/-- An attribute access `x.f.g` on a plain name. -/
def pdot2 (x f g : String) : PExpr := .attr (.attr (.nameE x) f) g

/-- A Python list literal. -/
def plist (xs : List PExpr) : PExpr := .listL (pargs xs)

/-- A Python dict literal with string keys. -/
def pdict (xs : List (String × PExpr)) : PExpr := .dictL (pkw xs)

/-- Short name for the chapter 02 notebook. -/
def nb02 : String := "chapter_02_data_collection_labeling_validation"

/-- Short name for the chapter 03 notebook (its snippets are fenced blocks). -/
def nb03 : String := "chapter_03_feature_engineering_and_feature_selection"

/-- Short name for the chapter 04 notebook (its snippets are fenced
blocks). -/
def nb04 : String := "chapter_04_data_journey_and_data_storage"

/-- Short name for the chapter 05 notebook. -/
def nb05 : String := "chapter_05_advanced_labeling_augmentation_and_data_preprocessing"

/-- Chapter 02, code cell 1: `!pip install tensorflow-data-validation`. -/
def ch02c1 : Cell :=
  ⟨nb02, 1, pstmts [.shellCmd "pip install tensorflow-data-validation"]⟩

/-- Chapter 02, code cell 2: import TFDV and generate statistics from CSV. -/
def ch02c2 : Cell :=
  ⟨nb02, 2, pstmts
    [.importAs "tensorflow_data_validation" "tfdv",
     .assign "stats" (pcall (pdot "tfdv" "generate_statistics_from_csv") []
       [("data_location", .strLit "your_data.csv"), ("delimiter", .strLit ",")])]⟩

/-- Chapter 02, code cell 3: generate statistics from TFRecord and visualize. -/
def ch02c3 : Cell :=
  ⟨nb02, 3, pstmts
    [.assign "stats" (pcall (pdot "tfdv" "generate_statistics_from_tfrecord") []
       [("data_location", .strLit "your_data.tfrecord")]),
     .exprS (pcall (pdot "tfdv" "visualize_statistics") [.nameE "stats"] [])]⟩

/-- Chapter 02, code cell 4:
`print(stats.datasets[0].features[0].string_stats.rank_histogram)`. -/
def ch02c4 : Cell :=
  ⟨nb02, 4, pstmts
    [.exprS (pcall (.nameE "print")
      [.attr (.attr (.subscript (.attr (.subscript (pdot "stats" "datasets")
          (.numLit "0")) "features") (.numLit "0")) "string_stats")
        "rank_histogram"] [])]⟩

/-- Chapter 05, code cell 1: synthetic dataset, random unlabeling, label
propagation. -/
def ch05c1 : Cell :=
  ⟨nb05, 1, pstmts
    [.importFrom "sklearn" ["datasets"],
     .importFrom "sklearn.semi_supervised" ["LabelPropagation"],
     .importAs "matplotlib.pyplot" "plt",
     .importAs "numpy" "np",
     .tupleAssign ["X", "y"] (pcall (pdot "datasets" "make_classification") []
       [("n_samples", .numLit "200"), ("n_features", .numLit "2"),
        ("n_classes", .numLit "2"), ("n_redundant", .numLit "0")]),
     .assign "rng" (pcall (pdot2 "np" "random" "RandomState") [.numLit "42"] []),
     .assign "y_missing" (pcall (pdot "y" "copy") [] []),
     .assign "unlabeled_indices"
       (.cmp "lt" (pcall (pdot "rng" "rand")
         [pcall (.nameE "len") [.nameE "y"] []] []) (.numLit "0.8")),
     .subscriptAssign "y_missing" (.nameE "unlabeled_indices") (.numLit "-1"),
     .assign "lp_model" (pcall (.nameE "LabelPropagation") [] []),
     .exprS (pcall (pdot "lp_model" "fit") [.nameE "X", .nameE "y_missing"] [])]⟩

/-- Chapter 05, code cell 2: margin sampling for active learning. -/
def ch05c2 : Cell :=
  ⟨nb05, 2, pstmts
    [.importFrom "sklearn.svm" ["SVC"],
     .assign "initial_idx"
       (.sliceTo (.subscript (pcall (pdot "np" "where")
         [.cmp "ne" (.nameE "y_missing") (.numLit "-1")] []) (.numLit "0"))
         (.numLit "10")),
     .assign "model" (pcall (.nameE "SVC") []
       [("kernel", .strLit "linear"), ("probability", .nameE "True")]),
     .exprS (pcall (pdot "model" "fit")
       [.subscript (.nameE "X") (.nameE "initial_idx"),
        .subscript (.nameE "y") (.nameE "initial_idx")] []),
     .assign "probs" (pcall (pdot "model" "predict_proba") [.nameE "X"] []),
     .assign "margins" (pcall (pdot "np" "abs")
       [.binop "sub" (.colIx (.nameE "probs") (.numLit "0"))
         (.colIx (.nameE "probs") (.numLit "1"))] []),
     .assign "uncertain_idx"
       (.sliceTo (pcall (pdot "np" "argsort") [.nameE "margins"] [])
         (.numLit "10"))]⟩

/-- Chapter 05, code cell 3: the two Snorkel labeling functions. -/
def ch05c3 : Cell :=
  ⟨nb05, 3, pstmts
    [.importFrom "snorkel.labeling" ["labeling_function"],
     .funcDef (pargs [pcall (.nameE "labeling_function") [] []])
       "lf_contains_my" ["x"]
       (pstmts [.ret (.condExpr (.numLit "1")
         (.cmp "in" (.strLit "my")
           (pcall (.attr (pdot "x" "text") "lower") [] []))
         (.numLit "-1"))]),
     .funcDef (pargs [pcall (.nameE "labeling_function") [] []])
       "lf_short_comment" ["x"]
       (pstmts [.ret (.condExpr (.numLit "0")
         (.cmp "lt" (pcall (.nameE "len")
           [pcall (.attr (pdot "x" "text") "split") [] []] [])
           (.numLit "5"))
         (.numLit "-1"))])]⟩

/-- Chapter 05, code cell 4: the CIFAR-10 `augment` function. -/
def ch05c4 : Cell :=
  ⟨nb05, 4, pstmts
    [.importAs "tensorflow" "tf",
     .funcDef (pargs []) "augment" ["x", "height", "width", "num_channels"]
       (pstmts
         [.assign "x" (pcall (pdot2 "tf" "image" "resize_with_crop_or_pad")
           [.nameE "x", .binop "add" (.nameE "height") (.numLit "8"),
            .binop "add" (.nameE "width") (.numLit "8")] []),
          .assign "x" (pcall (pdot2 "tf" "image" "random_crop")
           [.nameE "x",
            plist [.nameE "height", .nameE "width", .nameE "num_channels"]] []),
          .assign "x" (pcall (pdot2 "tf" "image" "random_flip_left_right")
           [.nameE "x"] []),
          .ret (.nameE "x")])]⟩

/-- Chapter 05, code cell 5: seasonality plot of a synthetic sine wave. -/
def ch05c5 : Cell :=
  ⟨nb05, 5, pstmts
    [.assign "x" (pcall (pdot "np" "linspace")
       [.numLit "0", .numLit "10", .numLit "200"] []),
     .assign "y" (.binop "add"
       (.binop "mul" (.numLit "3") (pcall (pdot "np" "sin")
         [.binop "mul" (.binop "mul" (.numLit "2") (pdot "np" "pi"))
           (.nameE "x")] []))
       (.numLit "15")),
     .exprS (pcall (pdot "plt" "plot") [.nameE "x", .nameE "y"] []),
     .exprS (pcall (pdot "plt" "title")
       [.strLit "Seasonality in Time Series"] []),
     .exprS (pcall (pdot "plt" "xlabel") [.strLit "Time"] []),
     .exprS (pcall (pdot "plt" "ylabel") [.strLit "Temperature"] []),
     .exprS (pcall (pdot "plt" "show") [] [])]⟩

/-- Chapter 03, snippet 1: the `compute_feature_std` helper. -/
def ch03s1 : Cell :=
  ⟨nb03, 1, pstmts
    [.importAs "numpy" "np",
     .funcDef (pargs []) "compute_feature_std" ["feature_column"]
       (pstmts [.ret (pcall (pdot "np" "std") [.nameE "feature_column"] [])])]⟩

/-- Chapter 03, snippet 2: min-max and standard scaling of `[[1],[2],[3]]`. -/
def ch03s2 : Cell :=
  ⟨nb03, 2, pstmts
    [.importAs "pandas" "pd",
     .importFrom "sklearn.preprocessing" ["MinMaxScaler", "StandardScaler"],
     .assign "X" (plist [plist [.numLit "1"], plist [.numLit "2"],
       plist [.numLit "3"]]),
     .assign "X_norm" (pcall (.attr (pcall (.nameE "MinMaxScaler") [] [])
       "fit_transform") [.nameE "X"] []),
     .assign "X_std" (pcall (.attr (pcall (.nameE "StandardScaler") [] [])
       "fit_transform") [.nameE "X"] [])]⟩

/-- Chapter 03, snippet 3: the data cleaning example
`df_cleaned = df[df["timestamp"] != "00:00"]`. -/
def ch03s3 : Cell :=
  ⟨nb03, 3, pstmts
    [.assign "df" (pcall (pdot "pd" "DataFrame")
       [pdict [("timestamp", plist [.strLit "00:00", .strLit "12:00",
         .strLit "00:00"])]] []),
     .assign "df_cleaned" (.subscript (.nameE "df")
       (.cmp "ne" (.subscript (.nameE "df") (.strLit "timestamp"))
         (.strLit "00:00")))]⟩

/-- Chapter 03, snippet 4: bucketizing with `pd.qcut`. -/
def ch03s4 : Cell :=
  ⟨nb03, 4, pstmts
    [.importAs "pandas" "pd",
     .assign "values" (pcall (pdot "pd" "Series")
       [plist [.numLit "1", .numLit "2", .numLit "2", .numLit "3",
         .numLit "4", .numLit "5", .numLit "6", .numLit "7", .numLit "8"]] []),
     .assign "buckets" (pcall (pdot "pd" "qcut") [.nameE "values"]
       [("q", .numLit "3"),
        ("labels", plist [.strLit "low", .strLit "medium", .strLit "high"])])]⟩

/-- Chapter 03, snippet 5: the feature cross
`df["hour_of_week"] = df["day"] * 24 + df["hour"]`. -/
def ch03s5 : Cell :=
  ⟨nb03, 5, pstmts
    [.importAs "pandas" "pd",
     .assign "df" (pcall (pdot "pd" "DataFrame")
       [pdict [("day", plist [.numLit "1", .numLit "2"]),
         ("hour", plist [.numLit "10", .numLit "12"])]] []),
     .subscriptAssign "df" (.strLit "hour_of_week")
       (.binop "add"
         (.binop "mul" (.subscript (.nameE "df") (.strLit "day"))
           (.numLit "24"))
         (.subscript (.nameE "df") (.strLit "hour")))]⟩

/-- Chapter 03, snippet 6: PCA to one component on three 2-D points. -/
def ch03s6 : Cell :=
  ⟨nb03, 6, pstmts
    [.importFrom "sklearn.decomposition" ["PCA"],
     .assign "X" (plist [plist [.numLit "1", .numLit "2"],
       plist [.numLit "3", .numLit "4"], plist [.numLit "5", .numLit "6"]]),
     .assign "pca" (pcall (.nameE "PCA") [] [("n_components", .numLit "1")]),
     .assign "X_reduced" (pcall (pdot "pca" "fit_transform") [.nameE "X"] [])]⟩

/-- Chapter 03, snippet 7: the filter method with a hand-written
correlation threshold `cor_target[cor_target > 0.8]`. -/
def ch03s7 : Cell :=
  ⟨nb03, 7, pstmts
    [.assign "cor" (pcall (pdot "df" "corr") [] []),
     .assign "cor_target" (pcall (.nameE "abs")
       [.subscript (.nameE "cor") (.strLit "target")] []),
     .assign "selected_features" (.attr (.subscript (.nameE "cor_target")
       (.cmp "gt" (.nameE "cor_target") (.numLit "0.8"))) "index")]⟩

/-- Chapter 03, snippet 8: the `univariate_selection` function. -/
def ch03s8 : Cell :=
  ⟨nb03, 8, pstmts
    [.importFrom "sklearn.feature_selection" ["SelectKBest", "chi2"],
     .importFrom "sklearn.model_selection" ["train_test_split"],
     .importFrom "sklearn.preprocessing" ["MinMaxScaler"],
     .funcDef (pargs []) "univariate_selection" ["X", "y"]
       (pstmts
         [.tupleAssign ["X_train", "_", "y_train", "_"]
           (pcall (.nameE "train_test_split") [.nameE "X", .nameE "y"]
             [("stratify", .nameE "y"), ("test_size", .numLit "0.2")]),
          .assign "X_scaled" (pcall (.attr (pcall (.nameE "MinMaxScaler") [] [])
            "fit_transform") [.nameE "X_train"] []),
          .assign "selector" (pcall (.nameE "SelectKBest") []
            [("score_func", .nameE "chi2"), ("k", .numLit "10")]),
          .exprS (pcall (pdot "selector" "fit")
            [.nameE "X_scaled", .nameE "y_train"] []),
          .ret (.subscript (pdot "X" "columns")
            (pcall (pdot "selector" "get_support") [] []))])]⟩

/-- Chapter 03, snippet 9: the `run_rfe` function. -/
def ch03s9 : Cell :=
  ⟨nb03, 9, pstmts
    [.importFrom "sklearn.feature_selection" ["RFE"],
     .importFrom "sklearn.ensemble" ["RandomForestClassifier"],
     .funcDef (pargs []) "run_rfe" ["X", "y", "k"]
       (pstmts
         [.assign "model" (pcall (.nameE "RandomForestClassifier") [] []),
          .assign "rfe" (pcall (.nameE "RFE") [.nameE "model"]
            [("n_features_to_select", .nameE "k")]),
          .exprS (pcall (pdot "rfe" "fit") [.nameE "X", .nameE "y"] []),
          .ret (.subscript (pdot "X" "columns")
            (pcall (pdot "rfe" "get_support") [] []))])]⟩

/-- Chapter 03, snippet 10: embedded methods with `SelectFromModel`. -/
def ch03s10 : Cell :=
  ⟨nb03, 10, pstmts
    [.importFrom "sklearn.feature_selection" ["SelectFromModel"],
     .importFrom "sklearn.ensemble" ["RandomForestClassifier"],
     .assign "model" (pcall (.nameE "RandomForestClassifier") [] []),
     .exprS (pcall (pdot "model" "fit") [.nameE "X", .nameE "y"] []),
     .assign "selector" (pcall (.nameE "SelectFromModel") [.nameE "model"]
       [("prefit", .nameE "True")]),
     .assign "X_selected" (pcall (pdot "selector" "transform") [.nameE "X"] [])]⟩

/-- Chapter 03, snippet 11: the `preprocessing_fn` tokenization example. -/
def ch03s11 : Cell :=
  ⟨nb03, 11, pstmts
    [.importAs "tensorflow" "tf",
     .importAs "tensorflow_hub" "hub",
     .importAs "tensorflow_text" "tf_text",
     .assign "START_TOKEN_ID" (.numLit "101"),
     .assign "END_TOKEN_ID" (.numLit "102"),
     .funcDef (pargs []) "preprocessing_fn" ["inputs"]
       (pstmts
         [.assign "tokenizer" (pcall (pdot "tf_text" "BertTokenizer")
           [.ellipsisLit] []),
          .assign "text" (pcall (pdot "tf_text" "normalize_utf8")
           [.subscript (.nameE "inputs") (.strLit "message")] []),
          .assign "tokens" (pcall (.attr (pcall (pdot "tokenizer" "tokenize")
           [.nameE "text"] []) "merge_dims")
           [.numLit "-2", .numLit "-1"] []),
          .tupleAssign ["tokens", "type_ids"]
           (pcall (pdot "tf_text" "combine_segments")
             [.nameE "tokens", .nameE "START_TOKEN_ID",
              .nameE "END_TOKEN_ID"] []),
          .tupleAssign ["tokens", "mask_ids"]
           (pcall (pdot "tf_text" "pad_model_inputs") [.nameE "tokens"]
             [("max_seq_length", .numLit "128")]),
          .ret (pdict [("input_ids", .nameE "tokens"),
            ("input_mask", .nameE "mask_ids"),
            ("input_type_ids", .nameE "type_ids")])])]⟩

/-- Chapter 04, snippet 1: the MLMD metadata-model block.  Its fenced
`python` block consists solely of two comment lines ("MLMD metadata model
relationships", "Artifact, Execution, Context"), so it contributes no
statements. -/
def ch04s1 : Cell := ⟨nb04, 1, pstmts []⟩

/-- Chapter 04, snippet 2: generate statistics from a TFRecord, infer a
schema and display it (the first fenced block of the "TFDV Schema
Validation" cell). -/
def ch04s2 : Cell :=
  ⟨nb04, 2, pstmts
    [.importAs "tensorflow_data_validation" "tfdv",
     .assign "dataset_stats"
       (pcall (pdot "tfdv" "generate_statistics_from_tfrecord")
         [.strLit "train.tfrecord"] []),
     .assign "schema" (pcall (pdot "tfdv" "infer_schema") []
       [("statistics", .nameE "dataset_stats")]),
     .exprS (pcall (pdot "tfdv" "display_schema") [.nameE "schema"] [])]⟩

/-- Chapter 04, snippet 3: validate statistics against the schema and
display the anomalies (the second fenced block of the "TFDV Schema
Validation" cell) — the repository's only `tfdv.validate_statistics`
call. -/
def ch04s3 : Cell :=
  ⟨nb04, 3, pstmts
    [.assign "anomalies" (pcall (pdot "tfdv" "validate_statistics") []
       [("statistics", .nameE "dataset_stats"), ("schema", .nameE "schema")]),
     .exprS (pcall (pdot "tfdv" "display_anomalies") [.nameE "anomalies"] [])]⟩

/-- Chapter 04, snippet 4: the conceptual feature-store block,
`feature_store.put(...)` and `feature_store.get(...)`.  The notebook's
remaining fenced blocks — the TFMD schema-field example, the
schema-environments block (tagged `protobuf`) and the drift-comparator
block — are fragments of schema protocol-buffer text, not Python
statements, and are therefore not cells. -/
def ch04s4 : Cell :=
  ⟨nb04, 4, pstmts
    [.exprS (pcall (pdot "feature_store" "put")
       [.strLit "user_age_bucket", .nameE "feature_vector"] []),
     .assign "features" (pcall (pdot "feature_store" "get")
       [plist [.strLit "user_age_bucket"]] [("user_id", .strLit "123")])]⟩

/-- Every code snippet of the repository: the code cells of chapters 02
and 05 and the fenced python blocks of chapters 03 and 04. -/
def allCells : List Cell :=
  [ch02c1, ch02c2, ch02c3, ch02c4,
   ch03s1, ch03s2, ch03s3, ch03s4, ch03s5, ch03s6, ch03s7, ch03s8, ch03s9,
   ch03s10, ch03s11,
   ch04s1, ch04s2, ch04s3, ch04s4,
   ch05c1, ch05c2, ch05c3, ch05c4, ch05c5]

/-- The cells whose subject is feature selection or data validation: the
chapter 03 filter-method, univariate-selection, RFE and embedded-method
snippets, the chapter 02 TFDV statistics cells, and the chapter 04 TFDV
schema-inference and `validate_statistics` snippets. -/
def featureSelectionValidationCells : List Cell :=
  [ch02c2, ch02c3, ch02c4, ch03s7, ch03s8, ch03s9, ch03s10, ch04s2, ch04s3]

/-! ## Semantic embeddings of individual snippets -/

/-! ### Chapter 03 snippet 2/4/6: scaling, bucketizing, PCA

The numeric semantics of the library calls the snippets invoke, over exact
rationals.  Where the true output involves an irrational square root
(standard scaling, PCA scores), the model keeps the success/failure
behaviour and the rational core of the output and omits the square root;
the claims about these snippets only concern successful evaluation. -/

/-- The input of the scaling snippet, `X = [[1], [2], [3]]`. -/
def scalingInput : List (List ℚ) := [[1], [2], [3]]

/-- The single feature column of `scalingInput`. -/
def scalingColumn : List ℚ := scalingInput.map (fun r => r.headI)

/-- `MinMaxScaler().fit_transform` on one feature column: rescale to
`[0, 1]` by `(x - min) / (max - min)`; a constant column uses scale `1`
instead of dividing by zero, and fitting an empty column is an error. -/
def minMaxScalerFitTransform (xs : List ℚ) : Option (List ℚ) :=
  match xs with
  | [] => none
  | x :: rest =>
    let mn := rest.foldl min x
    let mx := rest.foldl max x
    let scale := if mx - mn = 0 then 1 else mx - mn
    some (xs.map (fun v => (v - mn) / scale))

/-- `StandardScaler().fit_transform` on one feature column: center by the
mean; the library then divides by the square root of the returned
(population) variance, with a zero variance replaced by `1`.  The square
root is irrational in general and is left symbolic: the returned pair is
(centered column, variance).  Fitting an empty column is an error. -/
def standardScalerFitTransform (xs : List ℚ) : Option (List ℚ × ℚ) :=
  match xs with
  | [] => none
  | _ =>
    let n : ℚ := xs.length
    let mean := xs.sum / n
    let var := (xs.map (fun v => (v - mean) * (v - mean))).sum / n
    some (xs.map (fun v => v - mean), if var = 0 then 1 else var)

/-- Insert into a sorted list of rationals. -/
def insertSorted (x : ℚ) : List ℚ → List ℚ
  | [] => [x]
  | y :: ys => if x ≤ y then x :: y :: ys else y :: insertSorted x ys

/-- Insertion sort on rationals. -/
def sortQ (xs : List ℚ) : List ℚ := xs.foldr insertSorted []

/-- Linear-interpolation quantile of a sorted nonempty list, as pandas
computes it, at the fraction `i / q`: the position is
`(i / q) * (n - 1)`, whose integer part is the natural division
`i * (n - 1) / q` and whose fractional part is `(i * (n - 1) % q) / q`,
and the value interpolates linearly between the two neighbouring order
statistics. -/
def quantileLinear (sorted : List ℚ) (i q : Nat) : ℚ :=
  let n := sorted.length
  let lo := i * (n - 1) / q
  let fr : ℚ := ((i * (n - 1)) % q : Nat) / (q : ℚ)
  let a := sorted.getD lo 0
  let b := sorted.getD (lo + 1) a
  a + fr * (b - a)

/-- Are consecutive bin edges all distinct?  `pd.qcut` raises a
`ValueError` on duplicate bin edges (its default `duplicates="raise"`). -/
def edgesDistinct : List ℚ → Bool
  | a :: b :: rest => if a = b then false else edgesDistinct (b :: rest)
  | _ => true

/-- Assign a value to its bin given the upper edges of the bins (the first
edge of the full edge list removed) and the bin labels: `qcut` intervals
are right-closed and the lowest interval also contains the left edge. -/
def assignBin (v : ℚ) : List ℚ → List String → String
  | _ :: hiRest, l :: lRest =>
      match hiRest, lRest with
      | [], _ => l
      | _ :: _, [] => l
      | hi2 :: hs, l2 :: ls =>
          if v ≤ (hiRest.headI) then l else assignBin v (hi2 :: hs) (l2 :: ls)
  | _, _ => ""

/-- `pd.qcut(values, q, labels)`: cut into `q` quantile bins.  Errors (as
the library does) on an empty input, on duplicate bin edges, or when the
number of labels differs from the number of bins. -/
def qcut (xs : List ℚ) (q : Nat) (labels : List String) : Option (List String) :=
  match xs with
  | [] => none
  | _ =>
    let s := sortQ xs
    let edges := (List.range (q + 1)).map (fun i => quantileLinear s i q)
    if edgesDistinct edges then
      if labels.length = q then
        some (xs.map (fun v => assignBin v edges labels))
      else none
    else none

/-- The input of the qcut snippet. -/
def qcutInput : List ℚ := [1, 2, 2, 3, 4, 5, 6, 7, 8]

/-- `PCA(n_components=k).fit_transform(X)`: succeeds exactly when the input
is a nonempty rectangular matrix and `k` is at most `min(n_samples,
n_features)`; on success the result has shape `(n_samples, k)`.  The
floating-point component scores are irrational in general and are not part
of the model; the claim about this snippet only concerns success. -/
def pcaFitTransform (k : Nat) (X : List (List ℚ)) : Option (Nat × Nat) :=
  match X with
  | [] => none
  | r :: rs =>
    if rs.all (fun row => row.length = r.length) then
      if k ≤ min X.length r.length then some (X.length, k) else none
    else none

/-- The input of the PCA snippet, `X = [[1, 2], [3, 4], [5, 6]]`. -/
def pcaInput : List (List ℚ) := [[1, 2], [3, 4], [5, 6]]

/-! ### Chapter 05 cell 3: the Snorkel labeling functions -/

/-- A data point as the labeling functions see it: an object with a `text`
attribute. -/
structure SnorkelPoint where
  text : String

/-- Python `s.lower()`. -/
def pyLower (s : String) : String := String.map Char.toLower s

/-- Does the first character list start with the second?  (`needle` is the
second argument pattern: `startsWithSeq needle hay`). -/
def startsWithSeq : List Char → List Char → Bool
  | [], _ => true
  | _ :: _, [] => false
  | a :: as, b :: bs => (a == b) && startsWithSeq as bs

/-- Python substring containment `needle in hay`. -/
def strOccursIn (needle hay : String) : Bool :=
  (List.range (hay.data.length + 1)).any
    (fun i => startsWithSeq needle.data (hay.data.drop i))

/-- Python `s.split()`: split on whitespace runs, dropping empty tokens. -/
def pySplitWs (s : String) : List String :=
  (s.split (fun c => c.isWhitespace)).filter (fun t => t != "")

/-- The labeling function `lf_contains_my`:
`return 1 if "my" in x.text.lower() else -1`. -/
def lf_contains_my (x : SnorkelPoint) : Int :=
  if strOccursIn "my" (pyLower x.text) then 1 else -1

/-- The labeling function `lf_short_comment`:
`return 0 if len(x.text.split()) < 5 else -1`. -/
def lf_short_comment (x : SnorkelPoint) : Int :=
  if (pySplitWs x.text).length < 5 then 0 else -1

/-! ### Chapter 03 snippet 5: the `hour_of_week` feature cross -/

/-- The feature cross `day * 24 + hour` applied to one row. -/
def hour_of_week (day hour : Int) : Int := day * 24 + hour

/-- The column operation `df["hour_of_week"] = df["day"] * 24 + df["hour"]`:
each row is extended with its crossed feature. -/
def addHourOfWeekColumn (rows : List (Int × Int)) : List ((Int × Int) × Int) :=
  rows.map (fun r => (r, hour_of_week r.1 r.2))

/-- The frame of the feature-cross snippet:
`pd.DataFrame({"day": [1, 2], "hour": [10, 12]})` as (day, hour) rows. -/
def featureCrossFrame : List (Int × Int) := [(1, 10), (2, 12)]

/-! ### Chapter 03 snippet 3: the timestamp-cleaning filter -/

/-- A row of the cleaning example's frame. -/
structure CleanRow where
  timestamp : String
deriving DecidableEq

/-- The frame `pd.DataFrame({"timestamp": ["00:00", "12:00", "00:00"]})`. -/
def cleaningFrame : List CleanRow := [⟨"00:00"⟩, ⟨"12:00"⟩, ⟨"00:00"⟩]

/-- The Boolean mask `df["timestamp"] != "00:00"`. -/
def timestampMask (df : List CleanRow) : List Bool :=
  df.map (fun r => r.timestamp != "00:00")

/-- Row selection by a Boolean mask, as `df[mask]` performs it: keep the
rows whose mask entry is true, in their original order. -/
def selectByMask : List CleanRow → List Bool → List CleanRow
  | r :: rs, b :: bs =>
      if b then r :: selectByMask rs bs else selectByMask rs bs
  | _, _ => []

/-- The whole cleaning statement `df_cleaned = df[df["timestamp"] != "00:00"]`
as a state transformer: it returns the value bound to `df` after the
statement together with the value bound to `df_cleaned`. -/
def runCleaningCell (df : List CleanRow) : List CleanRow × List CleanRow :=
  (df, selectByMask df (timestampMask df))

/-! ### Error propagation in `univariate_selection` and `augment`

The snippets call fallible third-party functions.  The library calls are
modelled as an arbitrary record of `Except`-valued functions, and the
snippets as the exact sequencing the Python performs; nothing in the
snippets can intercept an error. -/

/-- The scikit-learn operations `univariate_selection` calls, with an
arbitrary error type and arbitrary behaviour.  `train_test_split` returns
((X_train, X_test), (y_train, y_test)). -/
structure SkLearnLib (E : Type) where
  train_test_split : List (List ℚ) → List ℚ →
    Except E ((List (List ℚ) × List (List ℚ)) × (List ℚ × List ℚ))
  minmax_fit_transform : List (List ℚ) → Except E (List (List ℚ))
  selectKBest_chi2_fit : Nat → List (List ℚ) → List ℚ → Except E (List Bool)

/-- A pandas-frame input of `univariate_selection`: column names plus data. -/
structure PandasDF where
  columns : List String
  data : List (List ℚ)

/-- Column selection by a Boolean support mask, as `X.columns[support]`. -/
def maskColumns : List String → List Bool → List String
  | c :: cs, b :: bs => if b then c :: maskColumns cs bs else maskColumns cs bs
  | _, _ => []

/-- The `univariate_selection` function of chapter 03, statement by
statement: split, scale the training split, fit the selector, and return
the supported columns.  Each library call may fail. -/
def univariate_selection (E : Type) (lib : SkLearnLib E) (X : PandasDF)
    (y : List ℚ) : Except E (List String) := do
  let split ← lib.train_test_split X.data y
  let X_scaled ← lib.minmax_fit_transform split.1.1
  let support ← lib.selectKBest_chi2_fit 10 X_scaled split.2.1
  pure (maskColumns X.columns support)

/-- The TensorFlow image operations `augment` calls, with an arbitrary
error type and arbitrary behaviour. -/
structure TFImageLib (E : Type) where
  resize_with_crop_or_pad : List (List (List ℚ)) → Nat → Nat →
    Except E (List (List (List ℚ)))
  random_crop : List (List (List ℚ)) → List Nat →
    Except E (List (List (List ℚ)))
  random_flip_left_right : List (List (List ℚ)) →
    Except E (List (List (List ℚ)))

/-- The `augment` function of chapter 05, statement by statement. -/
def augment (E : Type) (lib : TFImageLib E) (x : List (List (List ℚ)))
    (height width num_channels : Nat) :
    Except E (List (List (List ℚ))) := do
  let x ← lib.resize_with_crop_or_pad x (height + 8) (width + 8)
  let x ← lib.random_crop x [height, width, num_channels]
  lib.random_flip_left_right x

/-! ## The claims -/

/-- The specification's claim that no cell contains original control
logic, as a computation over the embedded cells. -/
def noOriginalLogicClaim : Bool := allCells.all (fun c => !c.hasOriginalLogic)

/-- The specification's claim that a variable used by a cell that does not
define it is never defined by another cell of the same notebook. -/
def noCrossCellReads : Bool :=
  allCells.all (fun c =>
    c.uses.all (fun v =>
      c.defines.contains v ||
        allCells.all (fun c2 =>
          !(c2.notebook == c.notebook) || c2.idx == c.idx ||
            !(c2.defines.contains v))))

/-- The (notebook, cell index, variable) triples at which a cell reads a
variable it does not define but another cell of the same notebook does. -/
def crossCellViolations : List (String × Nat × String) :=
  allCells.flatMap (fun c =>
    ((c.uses.dedup).filter (fun v =>
      !(c.defines.contains v) &&
        allCells.any (fun c2 =>
          c2.notebook == c.notebook && c2.idx != c.idx &&
            c2.defines.contains v))).map (fun v => (c.notebook, c.idx, v)))

/-- The specification's claim that no snippet installs an exception
handler. -/
def noHandlersClaim : Bool := allCells.all (fun c => !c.hasTryHandler)

/-- The specification's claim that the feature-selection and
data-validation cells contain no custom selection or validation logic
(no comparison, arithmetic or conditional authored in the snippet). -/
def fullyDelegatedSelectionClaim : Bool :=
  featureSelectionValidationCells.all
    (fun c => !(c.hasCompare || c.hasArith || c.hasConditional))

/-- Claim C1 is false on the code: the Snorkel labeling-function cell of
chapter 05 (among others) contains original control logic — a conditional
expression and a custom substring predicate authored in the notebook — so
not every code cell is a standalone unmodified third-party API call. -/
theorem claim_C1_counterexample :
    Cell.hasOriginalLogic ch05c3 = true ∧
    ((allCells.map Cell.ident).contains ch05c3.ident) = true ∧
    noOriginalLogicClaim = false := by
  refine ⟨by decide, by decide, by decide⟩

/-- Claim C1, amended: most cells are standalone library invocations, but
exactly these cells contain original control logic (a conditional,
arithmetic feature construction, or a custom comparison predicate):
chapter 03 snippets 3 (the cleaning mask), 5 (the feature-cross
arithmetic) and 7 (the correlation threshold), and chapter 05 code cells
1 through 5; every remaining cell contains none. -/
theorem claim_C1 :
    (allCells.filter Cell.hasOriginalLogic).map Cell.ident =
      [(nb03, 3), (nb03, 5), (nb03, 7),
       (nb05, 1), (nb05, 2), (nb05, 3), (nb05, 4), (nb05, 5)] := by
  decide

/-- Claim C2 is false on the code: the chapter 02 histogram cell (cell 4)
reads the variable `stats` that it does not define and that the preceding
statistics cell (cell 3) defines, so data does flow between cells. -/
theorem claim_C2_counterexample :
    "stats" ∈ Cell.uses ch02c4 ∧
    (ch02c4.defines.contains "stats") = false ∧
    (ch02c3.defines.contains "stats") = true ∧
    ch02c3.notebook = ch02c4.notebook ∧
    ch02c3.idx ≠ ch02c4.idx ∧
    noCrossCellReads = false := by
  refine ⟨by decide, by decide, by decide, by decide, by decide, by decide⟩

/-- Claim C2, amended: variables do flow between cells; the complete list
of (notebook, cell, variable) triples at which a cell reads a variable
defined by a different cell of the same notebook is: chapter 02 cell 3
reads `tfdv` and cell 4 reads `stats`; chapter 03 snippet 3 reads `pd`,
snippet 7 reads `df` and snippet 10 reads `X`; chapter 04 snippet 3 (the
`validate_statistics` block) reads `dataset_stats`, `schema` and `tfdv`
from the preceding block; chapter 05 cell 2 reads `y_missing`, `y`, `X`
and `np`, and cell 5 reads `np` and `plt`.  All other variable uses are
local to the defining cell (or name builtins and names no cell
defines). -/
theorem claim_C2 :
    crossCellViolations =
      [(nb02, 3, "tfdv"), (nb02, 4, "stats"),
       (nb03, 3, "pd"), (nb03, 7, "df"), (nb03, 10, "X"),
       (nb04, 3, "dataset_stats"), (nb04, 3, "schema"), (nb04, 3, "tfdv"),
       (nb05, 2, "y_missing"), (nb05, 2, "y"), (nb05, 2, "X"), (nb05, 2, "np"),
       (nb05, 5, "np"), (nb05, 5, "plt")] := by
  decide

/-- Claim C4 is false on the code: the chapter 03 filter-method snippet is
a feature-selection cell that contains a hand-written threshold test
(`cor_target > 0.8`), so selection logic is not entirely delegated to
`SelectKBest`, `RFE` and the TFDV calls. -/
theorem claim_C4_counterexample :
    Cell.hasCompare ch03s7 = true ∧
    ((featureSelectionValidationCells.map Cell.ident).contains
      ch03s7.ident) = true ∧
    fullyDelegatedSelectionClaim = false := by
  refine ⟨by decide, by decide, by decide⟩

/-- Claim C4, amended: among the feature-selection and data-validation
cells, exactly one contains custom selection logic — the chapter 03
filter-method snippet with its hand-written correlation threshold
`cor_target[cor_target > 0.8]`; the `SelectKBest`, RFE, `SelectFromModel`
and TFDV statistics cells delegate entirely to library calls and author no
comparison, arithmetic or conditional of their own. -/
theorem claim_C4 :
    (featureSelectionValidationCells.filter
      (fun c => c.hasCompare || c.hasArith || c.hasConditional)).map
        Cell.ident = [(nb03, 7)] := by
  decide

/-- Claim C6: every embedded cell is sequential single-shot code — no
`await`, no `with` blocks, no loops, and no name referring to thread or
process creation, shared-state synchronization, or resource management
occurs in any cell. -/
theorem claim_C6 : allCells.all Cell.isSequentialSingleShot = true := by
  decide

/-- Bind on `Except` applied to a success. -/
theorem exceptBind_ok {α β E : Type} (a : α) (f : α → Except E β) :
    (Except.ok a >>= f) = f a := rfl

/-- Bind on `Except` applied to an error. -/
theorem exceptBind_error {α β E : Type} (e : E) (f : α → Except E β) :
    ((Except.error e : Except E α) >>= f) = Except.error e := rfl

/-- Claim C3: no embedded cell installs an exception handler, and the two
function-defining snippets (`univariate_selection` and `augment`) propagate
a failure of any of their underlying library calls unchanged: whichever
stage fails first, the function's result is exactly that error. -/
theorem claim_C3 :
    noHandlersClaim = true ∧
    (∀ (E : Type) (lib : SkLearnLib E) (X : PandasDF) (y : List ℚ) (e : E),
      lib.train_test_split X.data y = .error e →
      univariate_selection E lib X y = .error e) ∧
    (∀ (E : Type) (lib : SkLearnLib E) (X : PandasDF) (y : List ℚ) s (e : E),
      lib.train_test_split X.data y = .ok s →
      lib.minmax_fit_transform s.1.1 = .error e →
      univariate_selection E lib X y = .error e) ∧
    (∀ (E : Type) (lib : SkLearnLib E) (X : PandasDF) (y : List ℚ) s m (e : E),
      lib.train_test_split X.data y = .ok s →
      lib.minmax_fit_transform s.1.1 = .ok m →
      lib.selectKBest_chi2_fit 10 m s.2.1 = .error e →
      univariate_selection E lib X y = .error e) ∧
    (∀ (E : Type) (lib : TFImageLib E) x (h w c : Nat) (e : E),
      lib.resize_with_crop_or_pad x (h + 8) (w + 8) = .error e →
      augment E lib x h w c = .error e) ∧
    (∀ (E : Type) (lib : TFImageLib E) x (h w c : Nat) x1 (e : E),
      lib.resize_with_crop_or_pad x (h + 8) (w + 8) = .ok x1 →
      lib.random_crop x1 [h, w, c] = .error e →
      augment E lib x h w c = .error e) ∧
    (∀ (E : Type) (lib : TFImageLib E) x (h w c : Nat) x1 x2 (e : E),
      lib.resize_with_crop_or_pad x (h + 8) (w + 8) = .ok x1 →
      lib.random_crop x1 [h, w, c] = .ok x2 →
      lib.random_flip_left_right x2 = .error e →
      augment E lib x h w c = .error e) := by
  refine ⟨by decide, ?_, ?_, ?_, ?_, ?_, ?_⟩
  · intro E lib X y e h1
    simp only [univariate_selection, h1, exceptBind_error]
  · intro E lib X y s e h1 h2
    simp only [univariate_selection, h1, exceptBind_ok, h2, exceptBind_error]
  · intro E lib X y s m e h1 h2 h3
    simp only [univariate_selection, h1, exceptBind_ok, h2, h3,
      exceptBind_error]
  · intro E lib x h w c e h1
    simp only [augment, h1, exceptBind_error]
  · intro E lib x h w c x1 e h1 h2
    simp only [augment, h1, exceptBind_ok, h2, exceptBind_error]
  · intro E lib x h w c x1 x2 e h1 h2 h3
    simp only [augment, h1, exceptBind_ok, h2, h3]

/-- A scikit-learn library whose split fails. -/
def skSplitFails : SkLearnLib String :=
  ⟨fun _ _ => .error "malformed input data",
   fun _ => .ok [], fun _ _ _ => .ok []⟩

/-- A scikit-learn library whose scaler fails. -/
def skScaleFails : SkLearnLib String :=
  ⟨fun _ _ => .ok (([], []), ([], [])),
   fun _ => .error "negative feature", fun _ _ _ => .ok []⟩

/-- A scikit-learn library whose selector fails. -/
def skSelectFails : SkLearnLib String :=
  ⟨fun _ _ => .ok (([], []), ([], [])),
   fun _ => .ok [], fun _ _ _ => .error "k larger than n_features"⟩

/-- A TensorFlow image library whose resize fails. -/
def tfResizeFails : TFImageLib String :=
  ⟨fun _ _ _ => .error "bad image rank",
   fun _ _ => .ok [], fun _ => .ok []⟩

/-- A TensorFlow image library whose crop fails. -/
def tfCropFails : TFImageLib String :=
  ⟨fun _ _ _ => .ok [], fun _ _ => .error "crop larger than image",
   fun _ => .ok []⟩

/-- A TensorFlow image library whose flip fails. -/
def tfFlipFails : TFImageLib String :=
  ⟨fun _ _ _ => .ok [], fun _ _ => .ok [],
   fun _ => .error "unexpected dtype"⟩

/-- Concrete instances of claim C3's propagation statements: for each
stage of `univariate_selection` and of `augment`, a library whose call at
that stage fails makes the snippet return exactly that error. -/
theorem claim_C3_witness :
    univariate_selection String skSplitFails ⟨[], []⟩ [] =
      .error "malformed input data" ∧
    univariate_selection String skScaleFails ⟨[], []⟩ [] =
      .error "negative feature" ∧
    univariate_selection String skSelectFails ⟨[], []⟩ [] =
      .error "k larger than n_features" ∧
    augment String tfResizeFails [] 32 32 3 = .error "bad image rank" ∧
    augment String tfCropFails [] 32 32 3 = .error "crop larger than image" ∧
    augment String tfFlipFails [] 32 32 3 = .error "unexpected dtype" :=
  ⟨claim_C3.2.1 String skSplitFails ⟨[], []⟩ [] "malformed input data" rfl,
   claim_C3.2.2.1 String skScaleFails ⟨[], []⟩ [] (([], []), ([], []))
     "negative feature" rfl rfl,
   claim_C3.2.2.2.1 String skSelectFails ⟨[], []⟩ [] (([], []), ([], [])) []
     "k larger than n_features" rfl rfl rfl,
   claim_C3.2.2.2.2.1 String tfResizeFails [] 32 32 3 "bad image rank" rfl,
   claim_C3.2.2.2.2.2.1 String tfCropFails [] 32 32 3 []
     "crop larger than image" rfl rfl,
   claim_C3.2.2.2.2.2.2 String tfFlipFails [] 32 32 3 [] []
     "unexpected dtype" rfl rfl rfl⟩


/-- Claim C5: the self-contained snippets with literal well-formed sample
inputs evaluate successfully — min-max scaling of `[[1], [2], [3]]` yields
`[0, 1/2, 1]`, standard scaling succeeds (centering to `[-1, 0, 1]` with
variance `2/3`), `qcut` of the nine-value series into three labeled bins
succeeds with distinct bin edges, and PCA to one component on the three
2-D points succeeds with result shape `(3, 1)`. -/
theorem claim_C5 :
    minMaxScalerFitTransform scalingColumn = some [0, 1/2, 1] ∧
    standardScalerFitTransform scalingColumn = some ([-1, 0, 1], 2/3) ∧
    qcut qcutInput 3 ["low", "medium", "high"] =
      some ["low", "low", "low", "medium", "medium", "medium",
            "high", "high", "high"] ∧
    pcaFitTransform 1 pcaInput = some (3, 1) := by
  refine ⟨?_, ?_, ?_, ?_⟩
  · norm_num [minMaxScalerFitTransform, scalingColumn, scalingInput,
      min_def, max_def]
  · norm_num [standardScalerFitTransform, scalingColumn, scalingInput]
  · norm_num [qcut, qcutInput, sortQ, insertSorted, quantileLinear,
      edgesDistinct, assignBin, List.range_succ]
  · norm_num [pcaFitTransform, pcaInput]

/-- Claim C7: for every data point, `lf_contains_my` returns 1 exactly
when the substring "my" occurs in the lowercased text and -1 otherwise,
`lf_short_comment` returns 0 exactly when the text has fewer than 5
whitespace-separated tokens and -1 otherwise, and the two labeling
functions always land in {1, -1} and {0, -1} respectively. -/
theorem claim_C7 (x : SnorkelPoint) :
    (lf_contains_my x = 1 ↔ strOccursIn "my" (pyLower x.text) = true) ∧
    (lf_contains_my x = -1 ↔ strOccursIn "my" (pyLower x.text) = false) ∧
    (lf_contains_my x = 1 ∨ lf_contains_my x = -1) ∧
    (lf_short_comment x = 0 ↔ (pySplitWs x.text).length < 5) ∧
    (lf_short_comment x = -1 ↔ ¬ (pySplitWs x.text).length < 5) ∧
    (lf_short_comment x = 0 ∨ lf_short_comment x = -1) := by
  unfold lf_contains_my lf_short_comment
  by_cases hMy : strOccursIn "my" (pyLower x.text) = true <;>
    by_cases hLen : (pySplitWs x.text).length < 5 <;>
      simp [hMy, hLen]

/-- Claim C8: the feature cross `hour_of_week = day * 24 + hour` is
reversible on pairs with `0 ≤ hour < 24` — `day` and `hour` are recovered
by division and remainder by 24, the cross is injective on such pairs —
and on the snippet's frame it produces the crossed column [34, 60]. -/
theorem claim_C8 :
    (∀ day hour : Int, 0 ≤ hour → hour < 24 →
      hour_of_week day hour / 24 = day ∧
      hour_of_week day hour % 24 = hour ∧
      ∀ otherDay otherHour : Int, 0 ≤ otherHour → otherHour < 24 →
        hour_of_week otherDay otherHour = hour_of_week day hour →
        otherDay = day ∧ otherHour = hour) ∧
    addHourOfWeekColumn featureCrossFrame =
      [((1, 10), 34), ((2, 12), 60)] := by
  constructor
  · intro day hour hlo hhi
    unfold hour_of_week
    refine ⟨by omega, by omega, ?_⟩
    intro otherDay otherHour hlo2 hhi2 heq
    constructor <;> omega
  · decide

/-- Instance of claim C8 on the first row of the snippet's own frame: the
cross of day 1, hour 10 is 34 and divides back into (1, 10). -/
theorem claim_C8_witness :
    hour_of_week 1 10 / 24 = 1 ∧ hour_of_week 1 10 % 24 = 10 :=
  ⟨(claim_C8.1 1 10 (by decide) (by decide)).1,
   (claim_C8.1 1 10 (by decide) (by decide)).2.1⟩

/-- Mask selection with the timestamp mask is exactly a filter. -/
theorem selectByMask_timestampMask (df : List CleanRow) :
    selectByMask df (timestampMask df) =
      df.filter (fun r => r.timestamp != "00:00") := by
  induction df with
  | nil => rfl
  | cons r rs ih =>
      simp only [timestampMask, List.map_cons] at ih ⊢
      by_cases h : (r.timestamp != "00:00") = true
      · simp [selectByMask, List.filter_cons, h, ih]
      · simp [selectByMask, List.filter_cons, h, ih]

/-- Claim C9: the cleaning statement `df_cleaned = df[df["timestamp"] !=
"00:00"]` leaves `df` unchanged, returns exactly the rows whose timestamp
differs from "00:00" (a filter of the frame), preserves their original
relative order (the result is a sublist of the frame), and a row belongs
to the result exactly when it belongs to the frame with a timestamp other
than "00:00"; on the snippet's own frame it keeps only the "12:00" row. -/
theorem claim_C9 :
    (∀ df : List CleanRow,
      (runCleaningCell df).1 = df ∧
      (runCleaningCell df).2 = df.filter (fun r => r.timestamp != "00:00") ∧
      List.Sublist (runCleaningCell df).2 df ∧
      ∀ r : CleanRow, r ∈ (runCleaningCell df).2 ↔
        r ∈ df ∧ r.timestamp ≠ "00:00") ∧
    runCleaningCell cleaningFrame = (cleaningFrame, [⟨"12:00"⟩]) := by
  constructor
  · intro df
    refine ⟨rfl, selectByMask_timestampMask df, ?_, ?_⟩
    · show List.Sublist (selectByMask df (timestampMask df)) df
      rw [selectByMask_timestampMask df]
      exact List.filter_sublist df
    · intro r
      show r ∈ selectByMask df (timestampMask df) ↔ _
      rw [selectByMask_timestampMask df]
      simp [List.mem_filter, bne_iff_ne]
  · decide
